import Mathlib

/-!
Shallow embedding of `pebble/pool/base_pool.py`: the `BasePool` state
machine, its `PoolContext`, `Task` records, and `run_initializer`.

Python's mutable objects become explicit state passing: every method that
mutates `self` returns the updated pool, and a method that can raise
returns an `Except PoolExc` alongside the updated pool (Python keeps the
mutations made before the raise, so the pool is returned in both cases).
Values flowing through task payloads are opaque (`Val`); wall-clock
quantities are rationals, in seconds.
-/

namespace Pebble

/-- Pool state constant, `base_pool.py` line 169. -/
def CREATED : Nat := 0

/-- Pool state constant, `base_pool.py` line 170. -/
def RUNNING : Nat := 1

/-- Pool state constant, `base_pool.py` line 171. -/
def CLOSED : Nat := 2

/-- Pool state constant, `base_pool.py` line 172. -/
def STOPPED : Nat := 3

/-- Pool state constant, `base_pool.py` line 173. -/
def ERROR : Nat := 4

/-- `SLEEP_UNIT = 0.1` seconds (`base_pool.py` line 165). -/
def SLEEP_UNIT : ℚ := 1 / 10

/-- The states of a `concurrent.futures.Future`. Only construction in the
`pending` state happens inside `base_pool.py`. -/
inductive FutureState where
  | pending
  | running
  | cancelled
  | finished_ok
  | finished_err
deriving DecidableEq

/-- A `concurrent.futures.Future` as far as `base_pool.py` observes one. -/
structure Future where
  fstate : FutureState
deriving DecidableEq

/-- `Future()`: a fresh future is pending. -/
def Future.new : Future := ⟨FutureState.pending⟩

/-- `TaskPayload = namedtuple('TaskPayload', ('function', 'args', 'kwargs'))`. -/
structure TaskPayload (Val : Type) where
  function : Val
  args : List Val
  kwargs : List (Val × Val)
deriving DecidableEq

/-- `Worker = namedtuple('Worker', ('max_tasks', 'initializer', 'initargs'))`.
The initializer is a fallible callable: `Except.error` is a raised exception. -/
structure Worker (Val : Type) where
  max_tasks : Nat
  initializer : List Val → Except Val Unit
  initargs : List Val

/-- The `Task` class (`base_pool.py` lines 142-153). -/
structure Task (Val : Type) where
  id : Nat
  future : Future
  timeout : ℚ
  payload : TaskPayload Val
  timestamp : ℚ
  worker_id : Nat
deriving DecidableEq

/-- `Task.__init__`: stores identifier, future, timeout and payload, and sets
`timestamp = 0` and `worker_id = 0`. -/
def Task.init {Val : Type} (identifier : Nat) (future : Future) (timeout : ℚ)
    (payload : TaskPayload Val) : Task Val :=
  ⟨identifier, future, timeout, payload, 0, 0⟩

/-- `Task.started`: `bool(self.timestamp > 0)`. -/
def Task.started {Val : Type} (t : Task Val) : Bool :=
  decide (t.timestamp > 0)

/-- A `queue.Queue` as `base_pool.py` uses one: a FIFO of items plus the
`unfinished_tasks` counter that `put` increments. -/
structure Queue (τ : Type) where
  items : List τ
  unfinished_tasks : Nat
deriving DecidableEq

/-- `Queue()`: empty, no unfinished tasks. -/
def Queue.new {τ : Type} : Queue τ := ⟨[], 0⟩

/-- `Queue.put`: appends at the tail and increments `unfinished_tasks`. -/
def Queue.put {τ : Type} (q : Queue τ) (x : τ) : Queue τ :=
  ⟨q.items ++ [x], q.unfinished_tasks + 1⟩

/-- The exception kinds raised by `base_pool.py`, with their messages kept in
`PoolExc.message`. -/
inductive PoolExc where
  | PoolError
  | PoolNotActive
  | PoolStillRunning
  | TimedOut
deriving DecidableEq

/-- The message each raise site passes to its exception constructor. -/
def PoolExc.message : PoolExc → String
  | .PoolError => "Unexpected error within the Pool"
  | .PoolNotActive => "The Pool is not active"
  | .PoolStillRunning => "The Pool is still running"
  | .TimedOut => "Tasks are still being executed"

/-- `PoolContext.__init__` state (`base_pool.py` lines 129-135): `state`,
`task_queue`, `workers = max_workers`, `task_counter = count()` (embedded as
the next value that counter yields), `worker_parameters`. -/
structure PoolContext (Val : Type) where
  state : Nat
  task_queue : Queue (Task Val)
  workers : Nat
  task_counter : Nat
  worker_parameters : Worker Val

/-- `PoolContext(max_workers, max_tasks, initializer, initargs)`. -/
def PoolContext.init {Val : Type} (max_workers max_tasks : Nat)
    (initializer : List Val → Except Val Unit) (initargs : List Val) :
    PoolContext Val :=
  ⟨CREATED, Queue.new, max_workers, 0, ⟨max_tasks, initializer, initargs⟩⟩

/-- `PoolContext.alive`: `self.state not in (ERROR, STOPPED)`. -/
def PoolContext.alive {Val : Type} (c : PoolContext Val) : Bool :=
  !(c.state == ERROR || c.state == STOPPED)

/-- `BasePool.__init__` state (`base_pool.py` lines 29-33): the context, the
tuple of supervisor loops (each carried as its `is_alive()` flag, set by the
environment between operations) and the task id counter `count()` (embedded
as the next value it yields). -/
structure BasePool (Val : Type) where
  context : PoolContext Val
  loops : List Bool
  task_counter : Nat

/-- `BasePool(max_workers, max_tasks, initializer, initargs)`:
`self._loops = ()`, `self._task_counter = count()`. -/
def BasePool.init {Val : Type} (max_workers max_tasks : Nat)
    (initializer : List Val → Except Val Unit) (initargs : List Val) :
    BasePool Val :=
  ⟨PoolContext.init max_workers max_tasks initializer initargs, [], 0⟩

/-- Modelled from the spec: `_start_pool` raises `NotImplementedError` in
`BasePool` and is implemented by the concrete pools, whose code is not in
this repository slice. Per the spec's state table the transition out of
`CREATED` "spawns loops & workers" and lands in `RUNNING`; two freshly
spawned (alive) supervisor loops appear, per the two-loop design. -/
def BasePool.start_pool {Val : Type} (p : BasePool Val) : BasePool Val :=
  { p with context := { p.context with state := RUNNING }, loops := [true, true] }

/-- Modelled from the spec: `_stop_pool` raises `NotImplementedError` in
`BasePool` and is implemented by the concrete pools, whose code is not in
this repository slice. It terminates the workers and the supervisor loops;
it does not itself assign the recorded pool state. -/
def BasePool.stop_pool {Val : Type} (p : BasePool Val) : BasePool Val :=
  { p with loops := [] }

/-- First half of `_update_pool_state` (`base_pool.py` lines 115-116):
`if self._context.state == CREATED: self._start_pool()`. -/
def BasePool.refresh_started {Val : Type} (p : BasePool Val) : BasePool Val :=
  if p.context.state = CREATED then p.start_pool else p

/-- Second half of `_update_pool_state` (`base_pool.py` lines 118-120): the
state becomes `ERROR` when any loop is not alive. -/
def BasePool.flag_dead_loops {Val : Type} (p : BasePool Val) : BasePool Val :=
  if p.loops.all (fun l => l) then p
  else { p with context := { p.context with state := ERROR } }

/-- `_update_pool_state`: start a `CREATED` pool, then flag dead loops. -/
def BasePool.update_pool_state {Val : Type} (p : BasePool Val) : BasePool Val :=
  p.refresh_started.flag_dead_loops

/-- The `active` property: refresh the state, then report whether it is in
`(CLOSED, RUNNING)`; the refreshed pool is returned alongside. -/
def BasePool.active {Val : Type} (p : BasePool Val) : Bool × BasePool Val :=
  (p.update_pool_state.context.state == CLOSED
     || p.update_pool_state.context.state == RUNNING,
   p.update_pool_state)

/-- `close`: `self._context.state = CLOSED`, unconditionally. -/
def BasePool.close {Val : Type} (p : BasePool Val) : BasePool Val :=
  { p with context := { p.context with state := CLOSED } }

/-- `stop`: `self._context.state = STOPPED`, unconditionally. -/
def BasePool.stop {Val : Type} (p : BasePool Val) : BasePool Val :=
  { p with context := { p.context with state := STOPPED } }

/-- `_check_pool_state`: refresh, then raise `RuntimeError('Unexpected error
within the Pool')` on `ERROR` and `RuntimeError('The Pool is not active')` on
any other non-`RUNNING` state. -/
def BasePool.check_pool_state {Val : Type} (p : BasePool Val) :
    Except PoolExc Unit × BasePool Val :=
  if p.update_pool_state.context.state = ERROR then
    (Except.error PoolExc.PoolError, p.update_pool_state)
  else if p.update_pool_state.context.state ≠ RUNNING then
    (Except.error PoolExc.PoolNotActive, p.update_pool_state)
  else
    (Except.ok (), p.update_pool_state)

/-- `schedule(function, args, kwargs, timeout)` (`base_pool.py` lines
85-104): check the pool state, then build a fresh pending future, the
payload, and a task numbered by `next(self._task_counter)`, and put the task
at the tail of the task queue. -/
def BasePool.schedule {Val : Type} (p : BasePool Val) (function : Val)
    (args : List Val) (kwargs : List (Val × Val)) (timeout : ℚ) :
    Except PoolExc Future × BasePool Val :=
  match p.check_pool_state with
  | (Except.error e, q) => (Except.error e, q)
  | (Except.ok _, q) =>
      (Except.ok Future.new,
       { q with
         context := { q.context with
           task_queue := q.context.task_queue.put
             (Task.init q.task_counter Future.new timeout
               ⟨function, args, kwargs⟩) },
         task_counter := q.task_counter + 1 })

/-- The `while self.active` loop of `_wait_queue_depletion`. The queue's
`unfinished_tasks` counter is drained concurrently by worker threads, which
this single-threaded embedding models as the environment trace `trace`:
`trace i` is the value read at iteration `i`. Iteration `i` runs after `i`
sleeps of `SLEEP_UNIT`, so the elapsed time compared against `timeout` is
`i * SLEEP_UNIT`. `fuel` bounds the iterations; `none` means the loop was
still running when the bound was hit. -/
def BasePool.wait_queue_depletion_aux {Val : Type} (timeout : Option ℚ)
    (trace : Nat → Nat) :
    Nat → Nat → BasePool Val → Option (Except PoolExc Unit × BasePool Val)
  | 0, _, _ => none
  | fuel + 1, i, p =>
    match p.active with
    | (false, q) => some (Except.ok (), q)
    | (true, q) =>
      if timeout.any (fun t => decide ((i : ℚ) * SLEEP_UNIT > t)) then
        some (Except.error PoolExc.TimedOut, q)
      else if trace i ≠ 0 then
        BasePool.wait_queue_depletion_aux timeout trace fuel (i + 1) q
      else
        some (Except.ok (), q)

/-- `_wait_queue_depletion(timeout)` (`base_pool.py` lines 74-83), starting
at elapsed time `0`. -/
def BasePool.wait_queue_depletion {Val : Type} (p : BasePool Val)
    (timeout : Option ℚ) (fuel : Nat) (trace : Nat → Nat) :
    Option (Except PoolExc Unit × BasePool Val) :=
  BasePool.wait_queue_depletion_aux timeout trace fuel 0 p

/-- `join(timeout)` (`base_pool.py` lines 59-72): raise
`RuntimeError('The Pool is still running')` on `RUNNING`; on `CLOSED` wait
for queue depletion, `stop`, and join again (the recursive call passes no
timeout, as in the source — `rec` bounds that recursion, `none` meaning the
bound was hit); otherwise `_stop_pool` directly. -/
def BasePool.join {Val : Type} :
    Nat → BasePool Val → Option ℚ → Nat → (Nat → Nat) →
    Option (Except PoolExc Unit × BasePool Val)
  | 0, _, _, _, _ => none
  | rec + 1, p, timeout, fuel, trace =>
    if p.context.state = RUNNING then
      some (Except.error PoolExc.PoolStillRunning, p)
    else if p.context.state = CLOSED then
      match p.wait_queue_depletion timeout fuel trace with
      | none => none
      | some (Except.error e, q) => some (Except.error e, q)
      | some (Except.ok _, q) => BasePool.join rec q.stop none fuel trace
    else
      some (Except.ok (), p.stop_pool)

/-- `run_initializer(initializer, initargs)` (`base_pool.py` lines 156-162):
call the initializer; `True` when it returns, `False` when it raises (the
exception is printed, never propagated). -/
def run_initializer {Val : Type} (initializer : List Val → Except Val Unit)
    (initargs : List Val) : Bool :=
  match initializer initargs with
  | Except.ok _ => true
  | Except.error _ => false

/-!
Helper lemmas about the state refresh, shared by the claim theorems.
-/

theorem refresh_started_of_ne {Val : Type} (p : BasePool Val)
    (h : p.context.state ≠ CREATED) : p.refresh_started = p := by
  unfold BasePool.refresh_started
  exact if_neg h

theorem flag_dead_loops_of_alive {Val : Type} (p : BasePool Val)
    (h : p.loops.all (fun l => l) = true) : p.flag_dead_loops = p := by
  unfold BasePool.flag_dead_loops
  exact if_pos h

theorem update_pool_state_of_alive {Val : Type} (p : BasePool Val)
    (h1 : p.context.state ≠ CREATED) (h2 : p.loops.all (fun l => l) = true) :
    p.update_pool_state = p := by
  unfold BasePool.update_pool_state
  rw [refresh_started_of_ne p h1, flag_dead_loops_of_alive p h2]

theorem flag_dead_loops_task_queue {Val : Type} (p : BasePool Val) :
    p.flag_dead_loops.context.task_queue = p.context.task_queue := by
  unfold BasePool.flag_dead_loops
  split <;> rfl

theorem refresh_started_task_queue {Val : Type} (p : BasePool Val) :
    p.refresh_started.context.task_queue = p.context.task_queue := by
  unfold BasePool.refresh_started BasePool.start_pool
  split <;> rfl

theorem update_pool_state_task_queue {Val : Type} (p : BasePool Val) :
    p.update_pool_state.context.task_queue = p.context.task_queue := by
  unfold BasePool.update_pool_state
  rw [flag_dead_loops_task_queue, refresh_started_task_queue]

theorem update_pool_state_state_or_error {Val : Type} (p : BasePool Val)
    (h : p.context.state ≠ CREATED) :
    p.update_pool_state.context.state = p.context.state ∨
      p.update_pool_state.context.state = ERROR := by
  unfold BasePool.update_pool_state
  rw [refresh_started_of_ne p h]
  unfold BasePool.flag_dead_loops
  split
  · exact Or.inl rfl
  · exact Or.inr rfl

theorem update_pool_state_of_created {Val : Type} (p : BasePool Val)
    (h : p.context.state = CREATED) : p.update_pool_state = p.start_pool := by
  unfold BasePool.update_pool_state
  have h1 : p.refresh_started = p.start_pool := by
    unfold BasePool.refresh_started
    exact if_pos h
  rw [h1]
  have h2 : p.start_pool.loops.all (fun l => l) = true := rfl
  exact flag_dead_loops_of_alive _ h2

theorem active_of_closed_alive {Val : Type} (p : BasePool Val)
    (hs : p.context.state = CLOSED) (hl : p.loops.all (fun l => l) = true) :
    p.active = (true, p) := by
  unfold BasePool.active
  rw [update_pool_state_of_alive p (by rw [hs]; decide) hl, hs]
  rfl

theorem check_pool_state_of_error {Val : Type} (p : BasePool Val)
    (h : p.update_pool_state.context.state = ERROR) :
    p.check_pool_state = (Except.error PoolExc.PoolError, p.update_pool_state) := by
  unfold BasePool.check_pool_state
  rw [if_pos h]

theorem check_pool_state_of_not_active {Val : Type} (p : BasePool Val)
    (h1 : p.update_pool_state.context.state ≠ ERROR)
    (h2 : p.update_pool_state.context.state ≠ RUNNING) :
    p.check_pool_state = (Except.error PoolExc.PoolNotActive, p.update_pool_state) := by
  unfold BasePool.check_pool_state
  rw [if_neg h1, if_pos h2]

theorem check_pool_state_of_running {Val : Type} (p : BasePool Val)
    (h : p.update_pool_state.context.state = RUNNING) :
    p.check_pool_state = (Except.ok (), p.update_pool_state) := by
  unfold BasePool.check_pool_state
  rw [if_neg (by rw [h]; decide), if_neg (by rw [h]; simp)]

theorem schedule_of_check_error {Val : Type} (p : BasePool Val) (f : Val)
    (a : List Val) (k : List (Val × Val)) (t : ℚ) (e : PoolExc)
    (h : p.check_pool_state = (Except.error e, p.update_pool_state)) :
    p.schedule f a k t = (Except.error e, p.update_pool_state) := by
  unfold BasePool.schedule
  rw [h]

theorem schedule_raises_of_not_running {Val : Type} (p : BasePool Val) (f : Val)
    (a : List Val) (k : List (Val × Val)) (t : ℚ)
    (h : p.update_pool_state.context.state ≠ RUNNING) :
    (∃ e, (p.schedule f a k t).1 = Except.error e) ∧
    (p.schedule f a k t).2 = p.update_pool_state := by
  by_cases he : p.update_pool_state.context.state = ERROR
  · rw [schedule_of_check_error p f a k t _ (check_pool_state_of_error p he)]
    exact ⟨⟨PoolExc.PoolError, rfl⟩, rfl⟩
  · rw [schedule_of_check_error p f a k t _ (check_pool_state_of_not_active p he h)]
    exact ⟨⟨PoolExc.PoolNotActive, rfl⟩, rfl⟩

theorem schedule_running_eq {Val : Type} (p : BasePool Val) (f : Val)
    (a : List Val) (k : List (Val × Val)) (t : ℚ)
    (hs : p.context.state = RUNNING) (hl : p.loops.all (fun l => l) = true) :
    p.schedule f a k t =
      (Except.ok Future.new,
       { p with
         context := { p.context with
           task_queue := p.context.task_queue.put
             (Task.init p.task_counter Future.new t ⟨f, a, k⟩) },
         task_counter := p.task_counter + 1 }) := by
  have hupd : p.update_pool_state = p :=
    update_pool_state_of_alive p (by rw [hs]; decide) hl
  have hcps : p.check_pool_state = (Except.ok (), p) := by
    have := check_pool_state_of_running p (by rw [hupd, hs])
    rwa [hupd] at this
  unfold BasePool.schedule
  rw [hcps]

/-- C7: a Task's `started` predicate holds exactly when its `timestamp` is
strictly greater than 0, and a Task as constructed by `schedule`
(`Task.init`) has timestamp 0 and is therefore not started. -/
theorem task_started_iff_timestamp_pos {Val : Type} (tk : Task Val) (i : Nat)
    (fut : Future) (tm : ℚ) (pl : TaskPayload Val) :
    (tk.started = true ↔ tk.timestamp > 0) ∧
    (Task.init i fut tm pl).timestamp = 0 ∧
    (Task.init i fut tm pl).started = false := by
  refine ⟨?_, rfl, ?_⟩
  · unfold Task.started
    exact decide_eq_true_iff
  · unfold Task.started Task.init
    simp

/-- C9: `run_initializer(initializer, initargs)` returns `True` exactly when
`initializer(*initargs)` completes without raising and `False` exactly when
it raises; being Bool-valued, it propagates no exception to its caller. -/
theorem run_initializer_true_iff {Val : Type}
    (initializer : List Val → Except Val Unit) (initargs : List Val) :
    (run_initializer initializer initargs = true ↔
      ∃ u, initializer initargs = Except.ok u) ∧
    (run_initializer initializer initargs = false ↔
      ∃ e, initializer initargs = Except.error e) := by
  cases h : initializer initargs with
  | ok u => simp [run_initializer, h]
  | error e => simp [run_initializer, h]

/-- C10: `PoolContext.alive` holds exactly when the state is neither `ERROR`
nor `STOPPED`; a freshly constructed `PoolContext` is in `CREATED` with an
empty task queue, hence alive, and its raw state is not in the
`(CLOSED, RUNNING)` membership test that `active` uses. -/
theorem pool_context_alive_iff {Val : Type} (c : PoolContext Val) (mw mt : Nat)
    (ini : List Val → Except Val Unit) (ia : List Val) :
    (c.alive = true ↔ (c.state ≠ ERROR ∧ c.state ≠ STOPPED)) ∧
    (PoolContext.init mw mt ini ia : PoolContext Val).state = CREATED ∧
    (PoolContext.init mw mt ini ia : PoolContext Val).task_queue.items = [] ∧
    (PoolContext.init mw mt ini ia : PoolContext Val).alive = true ∧
    ((PoolContext.init mw mt ini ia : PoolContext Val).state == CLOSED
       || (PoolContext.init mw mt ini ia : PoolContext Val).state == RUNNING)
      = false := by
  refine ⟨?_, rfl, rfl, rfl, rfl⟩
  unfold PoolContext.alive
  simp

/-- A trivial worker-parameters record over `Unit` values, for concrete
instances. -/
def trivialWorker : Worker Unit := ⟨0, fun _ => Except.ok (), []⟩

/-- A concrete pool over `Unit` values sitting in state `s`, with two alive
supervisor loops. -/
def poolAt (s : Nat) : BasePool Unit :=
  ⟨⟨s, Queue.new, 1, 0, trivialWorker⟩, [true, true], 0⟩

/-- A concrete pool over `Unit` values in state `s` one of whose two
supervisor loops is dead. -/
def poolDeadLoop (s : Nat) : BasePool Unit :=
  ⟨⟨s, Queue.new, 1, 0, trivialWorker⟩, [true, false], 0⟩

/-- C1: when the refreshed state is not `RUNNING`, `schedule` raises and
enqueues nothing — `PoolError` ("Unexpected error within the Pool") on
`ERROR`, `PoolNotActive` ("The Pool is not active") on `CLOSED` or
`STOPPED`; a pool in `CREATED` is first started to `RUNNING` by the
refresh, so `schedule` on a fresh pool succeeds. -/
theorem schedule_rejects_not_running {Val : Type} (p : BasePool Val) (f : Val)
    (a : List Val) (k : List (Val × Val)) (t : ℚ) :
    (p.update_pool_state.context.state = ERROR →
      p.schedule f a k t = (Except.error PoolExc.PoolError, p.update_pool_state)) ∧
    (p.update_pool_state.context.state = CLOSED ∨
        p.update_pool_state.context.state = STOPPED →
      p.schedule f a k t = (Except.error PoolExc.PoolNotActive, p.update_pool_state)) ∧
    (p.update_pool_state.context.state ≠ RUNNING →
      (p.schedule f a k t).2.context.task_queue = p.context.task_queue) ∧
    (p.context.state = CREATED →
      p.update_pool_state.context.state = RUNNING ∧
      ∃ fut, (p.schedule f a k t).1 = Except.ok fut) ∧
    PoolExc.message PoolExc.PoolError = "Unexpected error within the Pool" ∧
    PoolExc.message PoolExc.PoolNotActive = "The Pool is not active" := by
  refine ⟨?_, ?_, ?_, ?_, rfl, rfl⟩
  · intro h
    exact schedule_of_check_error p f a k t _ (check_pool_state_of_error p h)
  · intro h
    have h1 : p.update_pool_state.context.state ≠ ERROR := by
      rcases h with h | h <;> rw [h] <;> decide
    have h2 : p.update_pool_state.context.state ≠ RUNNING := by
      rcases h with h | h <;> rw [h] <;> decide
    exact schedule_of_check_error p f a k t _ (check_pool_state_of_not_active p h1 h2)
  · intro h
    rw [(schedule_raises_of_not_running p f a k t h).2]
    exact update_pool_state_task_queue p
  · intro h
    have hupd : p.update_pool_state = p.start_pool := update_pool_state_of_created p h
    have hrun : p.update_pool_state.context.state = RUNNING := by rw [hupd]; rfl
    refine ⟨hrun, Future.new, ?_⟩
    unfold BasePool.schedule
    rw [check_pool_state_of_running p hrun]

/-- C1 witness: schedule at concrete pools in `ERROR`, `CLOSED`, `STOPPED`
and `CREATED`. -/
theorem schedule_rejects_not_running_witness :
    (poolAt ERROR).schedule () [] [] 0 =
      (Except.error PoolExc.PoolError, (poolAt ERROR).update_pool_state) ∧
    (poolAt CLOSED).schedule () [] [] 0 =
      (Except.error PoolExc.PoolNotActive, (poolAt CLOSED).update_pool_state) ∧
    (poolAt STOPPED).schedule () [] [] 0 =
      (Except.error PoolExc.PoolNotActive, (poolAt STOPPED).update_pool_state) ∧
    ((poolAt STOPPED).schedule () [] [] 0).2.context.task_queue =
      (poolAt STOPPED).context.task_queue ∧
    (poolAt CREATED).update_pool_state.context.state = RUNNING ∧
    (∃ fut, ((poolAt CREATED).schedule () [] [] 0).1 = Except.ok fut) :=
  ⟨(schedule_rejects_not_running (poolAt ERROR) () [] [] 0).1 rfl,
   (schedule_rejects_not_running (poolAt CLOSED) () [] [] 0).2.1 (Or.inl rfl),
   (schedule_rejects_not_running (poolAt STOPPED) () [] [] 0).2.1 (Or.inr rfl),
   (schedule_rejects_not_running (poolAt STOPPED) () [] [] 0).2.2.1 (by decide),
   ((schedule_rejects_not_running (poolAt CREATED) () [] [] 0).2.2.2.1 rfl).1,
   ((schedule_rejects_not_running (poolAt CREATED) () [] [] 0).2.2.2.1 rfl).2⟩

/-- C4: `active` is true exactly when the refreshed state is `RUNNING` or
`CLOSED`; on a `CREATED` pool the refresh first starts the pool (state
becomes `RUNNING`) and `active` is true; in `STOPPED` and `ERROR` it is
false. -/
theorem active_iff_running_or_closed {Val : Type} (p : BasePool Val) :
    ((p.active).1 = true ↔
      (p.update_pool_state.context.state = RUNNING ∨
       p.update_pool_state.context.state = CLOSED)) ∧
    (p.context.state = CREATED →
      (p.active).1 = true ∧ (p.active).2.context.state = RUNNING) ∧
    ((p.context.state = STOPPED ∨ p.context.state = ERROR) →
      (p.active).1 = false) := by
  refine ⟨?_, ?_, ?_⟩
  · unfold BasePool.active
    simp [or_comm]
  · intro h
    have hupd : p.update_pool_state = p.start_pool := update_pool_state_of_created p h
    unfold BasePool.active
    rw [hupd]
    exact ⟨rfl, rfl⟩
  · intro h
    have hnc : p.context.state ≠ CREATED := by
      rcases h with h | h <;> rw [h] <;> decide
    unfold BasePool.active
    rcases update_pool_state_state_or_error p hnc with h' | h'
    · rcases h with h | h <;> rw [h', h] <;> rfl
    · rw [h']
      rfl

/-- C4 witness: `active` at concrete pools in `CREATED` and `STOPPED`. -/
theorem active_iff_running_or_closed_witness :
    (((poolAt STOPPED).active).1 = true ↔
      ((poolAt STOPPED).update_pool_state.context.state = RUNNING ∨
       (poolAt STOPPED).update_pool_state.context.state = CLOSED)) ∧
    ((poolAt CREATED).active).1 = true ∧
    ((poolAt CREATED).active).2.context.state = RUNNING ∧
    ((poolAt STOPPED).active).1 = false :=
  ⟨(active_iff_running_or_closed (poolAt STOPPED)).1,
   ((active_iff_running_or_closed (poolAt CREATED)).2.1 rfl).1,
   ((active_iff_running_or_closed (poolAt CREATED)).2.1 rfl).2,
   (active_iff_running_or_closed (poolAt STOPPED)).2.2 (Or.inl rfl)⟩

/-- C6: `close` and `stop` are idempotent (a second call leaves the exact
pool a single call leaves), `close` lands in `CLOSED`, which is not
`RUNNING`, so a `schedule` after `close` raises and leaves the task queue
unchanged. -/
theorem close_stop_idempotent {Val : Type} (p : BasePool Val) (f : Val)
    (a : List Val) (k : List (Val × Val)) (t : ℚ) :
    p.close.close = p.close ∧
    p.stop.stop = p.stop ∧
    p.close.context.state = CLOSED ∧
    p.stop.context.state = STOPPED ∧
    p.close.context.state ≠ RUNNING ∧
    (∃ e, (p.close.schedule f a k t).1 = Except.error e) ∧
    (p.close.schedule f a k t).2.context.task_queue =
      p.close.context.task_queue := by
  have hnc : p.close.context.state ≠ CREATED := by
    show CLOSED ≠ CREATED
    decide
  have hnr : p.close.update_pool_state.context.state ≠ RUNNING := by
    rcases update_pool_state_state_or_error (p := p.close) hnc with h' | h' <;> rw [h']
    · show CLOSED ≠ RUNNING
      decide
    · decide
  refine ⟨rfl, rfl, rfl, rfl, ?_, ?_, ?_⟩
  · show CLOSED ≠ RUNNING
    decide
  · exact (schedule_raises_of_not_running p.close f a k t hnr).1
  · rw [(schedule_raises_of_not_running p.close f a k t hnr).2]
    exact update_pool_state_task_queue p.close

/-- C8: on a started pool (state no longer `CREATED`) with a dead supervisor
loop, any state refresh flags `ERROR`, after which `schedule` raises
`PoolError` with message "Unexpected error within the Pool". -/
theorem dead_loop_flags_error {Val : Type} (p : BasePool Val) (f : Val)
    (a : List Val) (k : List (Val × Val)) (t : ℚ)
    (hc : p.context.state ≠ CREATED) (hd : false ∈ p.loops) :
    p.update_pool_state.context.state = ERROR ∧
    (p.active).2.context.state = ERROR ∧
    p.schedule f a k t = (Except.error PoolExc.PoolError, p.update_pool_state) ∧
    PoolExc.message PoolExc.PoolError = "Unexpected error within the Pool" := by
  have hall : p.loops.all (fun l => l) = false := by
    cases hA : p.loops.all (fun l => l) with
    | false => rfl
    | true =>
        have := List.all_eq_true.mp hA false hd
        simp at this
  have herr : p.update_pool_state.context.state = ERROR := by
    unfold BasePool.update_pool_state
    rw [refresh_started_of_ne p hc]
    unfold BasePool.flag_dead_loops
    rw [hall]
    rfl
  exact ⟨herr, herr,
    schedule_of_check_error p f a k t _ (check_pool_state_of_error p herr), rfl⟩

/-- C8 witness: a concrete `RUNNING` pool with a dead loop. -/
theorem dead_loop_flags_error_witness :
    (poolDeadLoop RUNNING).update_pool_state.context.state = ERROR ∧
    ((poolDeadLoop RUNNING).active).2.context.state = ERROR ∧
    (poolDeadLoop RUNNING).schedule () [] [] 0 =
      (Except.error PoolExc.PoolError, (poolDeadLoop RUNNING).update_pool_state) ∧
    PoolExc.message PoolExc.PoolError = "Unexpected error within the Pool" :=
  dead_loop_flags_error (poolDeadLoop RUNNING) () [] [] 0 (by decide) (by decide)

/-- C5: `schedule` on a `RUNNING` pool (with alive loops, so the refresh
keeps it `RUNNING`) returns a fresh pending future and appends exactly one
task at the tail of the task queue carrying that future, the given timeout,
the payload, timestamp 0 and worker_id 0; the task takes the current counter
value and the counter increments, so across successive calls the ids are
strictly increasing, starting from 0 on a freshly constructed pool. -/
theorem schedule_enqueues_in_order {Val : Type} (p : BasePool Val) (f : Val)
    (a : List Val) (k : List (Val × Val)) (t : ℚ)
    (hs : p.context.state = RUNNING) (hl : p.loops.all (fun l => l) = true) :
    (p.schedule f a k t).1 = Except.ok Future.new ∧
    Future.new.fstate = FutureState.pending ∧
    (p.schedule f a k t).2.context.task_queue.items =
      p.context.task_queue.items ++
        [⟨p.task_counter, Future.new, t, ⟨f, a, k⟩, 0, 0⟩] ∧
    (p.schedule f a k t).2.task_counter = p.task_counter + 1 ∧
    ((p.schedule f a k t).2.schedule f a k t).2.context.task_queue.items =
      p.context.task_queue.items ++
        [⟨p.task_counter, Future.new, t, ⟨f, a, k⟩, 0, 0⟩,
         ⟨p.task_counter + 1, Future.new, t, ⟨f, a, k⟩, 0, 0⟩] ∧
    (∀ mw mt ini ia,
      (BasePool.init mw mt ini ia : BasePool Val).task_counter = 0) := by
  rw [schedule_running_eq p f a k t hs hl]
  refine ⟨rfl, rfl, rfl, rfl, ?_, fun _ _ _ _ => rfl⟩
  have h2 := schedule_running_eq
    (p := { p with
      context := { p.context with
        task_queue := p.context.task_queue.put
          (Task.init p.task_counter Future.new t ⟨f, a, k⟩) },
      task_counter := p.task_counter + 1 }) f a k t hs hl
  rw [h2]
  show ((p.context.task_queue.put _).put _).items = _
  unfold Queue.put Task.init
  simp

/-- C5 witness: two successive schedules on a concrete `RUNNING` pool. -/
theorem schedule_enqueues_in_order_witness :
    ((poolAt RUNNING).schedule () [] [] 0).1 = Except.ok Future.new ∧
    ((poolAt RUNNING).schedule () [] [] 0).2.context.task_queue.items =
      [⟨0, Future.new, 0, ⟨(), [], []⟩, 0, 0⟩] ∧
    (((poolAt RUNNING).schedule () [] [] 0).2.schedule () [] [] 0).2.context.task_queue.items =
      [⟨0, Future.new, 0, ⟨(), [], []⟩, 0, 0⟩,
       ⟨1, Future.new, 0, ⟨(), [], []⟩, 0, 0⟩] :=
  ⟨(schedule_enqueues_in_order (poolAt RUNNING) () [] [] 0 rfl rfl).1,
   (schedule_enqueues_in_order (poolAt RUNNING) () [] [] 0 rfl rfl).2.2.1,
   (schedule_enqueues_in_order (poolAt RUNNING) () [] [] 0 rfl rfl).2.2.2.2.1⟩

theorem wait_aux_times_out {Val : Type} (p : BasePool Val) (T : ℚ)
    (trace : Nat → Nat) (hs : p.context.state = CLOSED)
    (hl : p.loops.all (fun l => l) = true) (ht : ∀ j, trace j ≠ 0) :
    ∀ (fuel i : Nat), 10 * T < (i : ℚ) + (fuel : ℚ) →
      BasePool.wait_queue_depletion_aux (some T) trace (fuel + 1) i p =
        some (Except.error PoolExc.TimedOut, p) := by
  have hact : p.active = (true, p) := active_of_closed_alive p hs hl
  intro fuel
  induction fuel with
  | zero =>
      intro i h
      have hgt : (i : ℚ) * SLEEP_UNIT > T := by
        unfold SLEEP_UNIT
        push_cast at h
        linarith
      unfold BasePool.wait_queue_depletion_aux
      rw [hact]
      simp [Option.any, hgt]
  | succ n ih =>
      intro i h
      unfold BasePool.wait_queue_depletion_aux
      rw [hact]
      by_cases hc : (i : ℚ) * SLEEP_UNIT > T
      · simp [Option.any, hc]
      · have h2 : trace i ≠ 0 := ht i
        simp only [Option.any, hc, decide_eq_true_eq, if_false, h2, ite_not,
          if_neg, decide_eq_false_iff_not, not_false_eq_true, ite_true,
          if_true, Bool.false_eq_true, reduceIte]
        exact ih (i + 1) (by push_cast at h ⊢; linarith)

theorem wait_depletion_returns {Val : Type} (p : BasePool Val)
    (timeout : Option ℚ) (trace : Nat → Nat) (fuel : Nat)
    (hT : ∀ u ∈ timeout, (0 : ℚ) ≤ u) (h0 : trace 0 = 0) :
    p.wait_queue_depletion timeout (fuel + 1) trace =
      some (Except.ok (), p.update_pool_state) := by
  have hq : (p.active).2 = p.update_pool_state := rfl
  have hA : p.active = ((p.active).1, (p.active).2) := rfl
  unfold BasePool.wait_queue_depletion BasePool.wait_queue_depletion_aux
  cases hb : (p.active).1 with
  | false =>
      rw [hb, hq] at hA
      rw [hA]
  | true =>
      rw [hb, hq] at hA
      rw [hA]
      cases timeout with
      | none => simp [h0]
      | some T =>
          have h1 : (0 : ℚ) ≤ T := hT T (by simp)
          have hcond : ¬(((0 : Nat) : ℚ) * SLEEP_UNIT > T) := by
            unfold SLEEP_UNIT
            push_cast
            linarith
          simp [Option.any, hcond, h0, h1]

/-- C2: `join` raises `PoolStillRunning` ("The Pool is still running") on a
`RUNNING` pool; on a `CLOSED` pool it waits on the task queue, raising
`TimedOut` once the wait exceeds the given timeout while unfinished tasks
remain, and when the queue has no unfinished tasks it stops and joins again
so the pool ends in `STOPPED`; in any other state it runs `_stop_pool`
directly, leaving the state as it was. -/
theorem join_state_machine {Val : Type} (p : BasePool Val) (timeout : Option ℚ)
    (rec fuel : Nat) (trace : Nat → Nat) :
    (p.context.state = RUNNING →
      BasePool.join (rec + 1) p timeout fuel trace =
        some (Except.error PoolExc.PoolStillRunning, p) ∧
      PoolExc.message PoolExc.PoolStillRunning = "The Pool is still running") ∧
    (∀ T : ℚ, p.context.state = CLOSED → p.loops.all (fun l => l) = true →
      (∀ j, trace j ≠ 0) → 10 * T < (fuel : ℚ) →
      BasePool.join (rec + 1) p (some T) (fuel + 1) trace =
        some (Except.error PoolExc.TimedOut, p)) ∧
    (p.context.state = CLOSED → (∀ u ∈ timeout, (0 : ℚ) ≤ u) → trace 0 = 0 →
      ∃ q, BasePool.join (rec + 2) p timeout (fuel + 1) trace =
          some (Except.ok (), q) ∧ q.context.state = STOPPED) ∧
    (p.context.state ≠ RUNNING → p.context.state ≠ CLOSED →
      BasePool.join (rec + 1) p timeout fuel trace =
        some (Except.ok (), p.stop_pool) ∧
      p.stop_pool.context.state = p.context.state) := by
  refine ⟨?_, ?_, ?_, ?_⟩
  · intro h
    unfold BasePool.join
    rw [if_pos h]
    exact ⟨rfl, rfl⟩
  · intro T hs hl ht hfuel
    unfold BasePool.join
    rw [if_neg (by rw [hs]; decide), if_pos hs]
    have hw : p.wait_queue_depletion (some T) (fuel + 1) trace =
        some (Except.error PoolExc.TimedOut, p) := by
      unfold BasePool.wait_queue_depletion
      exact wait_aux_times_out p T trace hs hl ht fuel 0 (by push_cast; linarith)
    rw [hw]
  · intro hs hT h0
    refine ⟨((p.update_pool_state).stop).stop_pool, ?_, rfl⟩
    show BasePool.join (rec + 1 + 1) p timeout (fuel + 1) trace = _
    unfold BasePool.join
    rw [if_neg (by rw [hs]; decide), if_pos hs,
        wait_depletion_returns p timeout trace fuel hT h0]
    show BasePool.join (rec + 1) (p.update_pool_state).stop none (fuel + 1) trace = _
    have hs1 : (p.update_pool_state).stop.context.state ≠ RUNNING := by
      show STOPPED ≠ RUNNING
      decide
    have hs2 : (p.update_pool_state).stop.context.state ≠ CLOSED := by
      show STOPPED ≠ CLOSED
      decide
    unfold BasePool.join
    rw [if_neg hs1, if_neg hs2]
  · intro h1 h2
    unfold BasePool.join
    rw [if_neg h1, if_neg h2]
    exact ⟨rfl, rfl⟩

/-- C2 witness: `join` at concrete pools — a `RUNNING` pool, a `CLOSED` pool
that times out after 1 second of positive unfinished counts, a `CLOSED` pool
whose queue is depleted at once, and a `STOPPED` pool. -/
theorem join_state_machine_witness :
    BasePool.join 1 (poolAt RUNNING) none 0 (fun _ => 0) =
      some (Except.error PoolExc.PoolStillRunning, poolAt RUNNING) ∧
    BasePool.join 1 (poolAt CLOSED) (some 1) 12 (fun _ => 1) =
      some (Except.error PoolExc.TimedOut, poolAt CLOSED) ∧
    (∃ q, BasePool.join 2 (poolAt CLOSED) none 1 (fun _ => 0) =
        some (Except.ok (), q) ∧ q.context.state = STOPPED) ∧
    BasePool.join 1 (poolAt STOPPED) none 0 (fun _ => 0) =
      some (Except.ok (), (poolAt STOPPED).stop_pool) :=
  ⟨((join_state_machine (poolAt RUNNING) none 0 0 (fun _ => 0)).1 rfl).1,
   (join_state_machine (poolAt CLOSED) (some 1) 0 11 (fun _ => 1)).2.1 1 rfl rfl
      (fun _ => Nat.one_ne_zero) (by norm_num),
   (join_state_machine (poolAt CLOSED) none 0 0 (fun _ => 0)).2.2.1 rfl
      (by simp) rfl,
   ((join_state_machine (poolAt STOPPED) none 0 0 (fun _ => 0)).2.2.2
      (by decide) (by decide)).1⟩

/-- C3 counterexample: `close()` on a pool in state `STOPPED` assigns
`CLOSED` unconditionally, so `STOPPED` is not a sink state of the public
operations. -/
theorem stopped_not_sink_counterexample :
    (poolAt STOPPED).context.state = STOPPED ∧
    ((poolAt STOPPED).close).context.state = CLOSED ∧
    CLOSED ≠ STOPPED :=
  ⟨rfl, rfl, by decide⟩

/-- C3 amended: once the state is `ERROR`, `schedule`, `join` and `active`
never change it; once `STOPPED`, those three leave the state in `STOPPED` or
`ERROR` (the latter when a supervisor loop is dead); but `close` and `stop`
assign the state unconditionally, so `close` moves even a `STOPPED` or
`ERROR` pool to `CLOSED` and `stop` moves even an `ERROR` pool to
`STOPPED`. -/
theorem terminal_states_amended {Val : Type} (p : BasePool Val) (f : Val)
    (a : List Val) (k : List (Val × Val)) (t : ℚ) (timeout : Option ℚ)
    (rec fuel : Nat) (trace : Nat → Nat) :
    (p.context.state = ERROR →
      (p.schedule f a k t).2.context.state = ERROR ∧
      (p.active).2.context.state = ERROR ∧
      BasePool.join (rec + 1) p timeout fuel trace =
        some (Except.ok (), p.stop_pool) ∧
      p.stop_pool.context.state = ERROR) ∧
    (p.context.state = STOPPED →
      ((p.schedule f a k t).2.context.state = STOPPED ∨
        (p.schedule f a k t).2.context.state = ERROR) ∧
      ((p.active).2.context.state = STOPPED ∨
        (p.active).2.context.state = ERROR) ∧
      BasePool.join (rec + 1) p timeout fuel trace =
        some (Except.ok (), p.stop_pool) ∧
      p.stop_pool.context.state = STOPPED) ∧
    (p.close.context.state = CLOSED ∧ p.stop.context.state = STOPPED) := by
  refine ⟨?_, ?_, rfl, rfl⟩
  · intro h
    have hnc : p.context.state ≠ CREATED := by rw [h]; decide
    have hupd : p.update_pool_state.context.state = ERROR := by
      rcases update_pool_state_state_or_error p hnc with h' | h'
      · rw [h', h]
      · exact h'
    have hnr : p.update_pool_state.context.state ≠ RUNNING := by
      rw [hupd]; decide
    refine ⟨?_, hupd, ?_, h⟩
    · rw [(schedule_raises_of_not_running p f a k t hnr).2]
      exact hupd
    · unfold BasePool.join
      rw [if_neg (by rw [h]; decide), if_neg (by rw [h]; decide)]
  · intro h
    have hnc : p.context.state ≠ CREATED := by rw [h]; decide
    have hupd : p.update_pool_state.context.state = STOPPED ∨
        p.update_pool_state.context.state = ERROR := by
      rcases update_pool_state_state_or_error p hnc with h' | h'
      · exact Or.inl (by rw [h', h])
      · exact Or.inr h'
    have hnr : p.update_pool_state.context.state ≠ RUNNING := by
      rcases hupd with h' | h' <;> rw [h'] <;> decide
    refine ⟨?_, hupd, ?_, h⟩
    · rw [(schedule_raises_of_not_running p f a k t hnr).2]
      exact hupd
    · unfold BasePool.join
      rw [if_neg (by rw [h]; decide), if_neg (by rw [h]; decide)]

/-- C3 witness for the amended statement: concrete pools in `ERROR` and
`STOPPED`, and `close` on a stopped pool with a dead loop. -/
theorem terminal_states_amended_witness :
    ((poolAt ERROR).schedule () [] [] 0).2.context.state = ERROR ∧
    BasePool.join 1 (poolAt ERROR) none 0 (fun _ => 0) =
      some (Except.ok (), (poolAt ERROR).stop_pool) ∧
    (((poolAt STOPPED).active).2.context.state = STOPPED ∨
      ((poolAt STOPPED).active).2.context.state = ERROR) ∧
    (poolDeadLoop STOPPED).close.context.state = CLOSED :=
  ⟨((terminal_states_amended (poolAt ERROR) () [] [] 0 none 0 0 (fun _ => 0)).1
      rfl).1,
   ((terminal_states_amended (poolAt ERROR) () [] [] 0 none 0 0 (fun _ => 0)).1
      rfl).2.2.1,
   ((terminal_states_amended (poolAt STOPPED) () [] [] 0 none 0 0 (fun _ => 0)).2.1
      rfl).2.1,
   (terminal_states_amended (poolDeadLoop STOPPED) () [] [] 0 none 0 0
      (fun _ => 0)).2.2.1⟩

end Pebble
